import Mathlib

/-!
Verification of the bird-observation dashboard (`src/app.py`).

The program is a pandas/streamlit script.  We embed the fragment the
specification talks about:

* a `DataFrame` is a list of column names plus a list of rows, each row a
  list of cells; a cell is `Option Value` where `none` is the missing
  marker (pandas `NaN`);
* column access `df[c]` raises `KeyError` when the column is absent; we
  model every operation that accesses a column as an `Except String`
  computation whose error value is the offending column name;
* the sidebar filter (line 79 of `app.py`):
  `df[df["Year"].isin(years) & df["Season"].isin(seasons) & df["Location_Type"].isin(locations)]`
  — pandas `isin` is false on a missing cell;
* the KPI counters (`nunique`, which ignores missing values), the
  `groupby(...)[...].count()` / `groupby(...)[...].nunique()` /
  `value_counts()` aggregations (pandas drops missing group keys, and
  `count` counts only non-missing cells), and the `value_counts` /
  `sort_values(ascending=False).head(10)` top-10 views;
* the loader (`load_data`), which coerces five numeric columns with
  `pd.to_numeric(errors="coerce")`, turning unparsable entries into the
  missing marker; the concrete numeric parser of pandas is abstracted as a
  parameter `parse : String → Option Int`, and likewise the
  `pd.to_datetime(...).dt.hour` derivation of `Start_Hour` is abstracted
  as `toHour : Value → Option Value`;
* the page render: the script runs top to bottom and the first uncaught
  exception aborts everything after it, which is the sequencing of
  `Except` in `renderPage`.
-/

deriving instance DecidableEq for Except

namespace BirdsDash

/-- A scalar cell value: pandas object cells are strings, numeric cells are
numbers (modelled as `Int`; the claims do not depend on float semantics). -/
inductive Value where
  | str (s : String)
  | num (n : Int)

deriving DecidableEq, Repr

/-- A cell of the table; `none` is the missing marker (pandas `NaN`). -/
abbrev Cell := Option Value

/-- An in-memory table: column names and rows of cells (row `r` holds the
cell of column `cols[i]` at position `i`). -/
structure DataFrame where
  cols : List String
  rows : List (List Cell)

deriving DecidableEq, Repr

/-- Position of a column in the frame, `none` when absent. -/
def DataFrame.colIdx (df : DataFrame) (c : String) : Option Nat :=
  df.cols.findIdx? (fun c' => c' == c)

/-- Column access at the frame level: pandas `df[c]` raises `KeyError c`
when the column is absent. -/
def keyIdx (df : DataFrame) (c : String) : Except String Nat :=
  match df.colIdx c with
  | some i => .ok i
  | none => .error c

/-- The cell of a row at column position `i` (missing when the row is
short). -/
def rowCell (r : List Cell) (i : Nat) : Cell := r.getD i none

/-- The full column of cells, `df[c]` as a series. -/
def DataFrame.column (df : DataFrame) (c : String) : Except String (List Cell) :=
  (keyIdx df c).map (fun i => df.rows.map (fun r => rowCell r i))

/-- Model of `series.dropna().unique()`: the distinct non-missing values.
(pandas keeps the first of equal values, `List.dedup` the last; every
claim settled here depends only on the set of distinct values, which
coincides.) -/
def dropnaUnique (cells : List Cell) : List Value :=
  (cells.filterMap id).dedup

/-- The sidebar option set of a column (lines 75–77 of `app.py`):
`df[c].dropna().unique()`.  (Line 75 additionally sorts the years, which
is irrelevant to set membership.) -/
def observedValues (df : DataFrame) (c : String) : List Value :=
  dropnaUnique ((df.column c).toOption.getD [])

/-- pandas `isin`: membership of the cell's value in the selection, false
on a missing cell. -/
def cellIsin (c : Cell) (vs : List Value) : Bool :=
  match c with
  | some v => vs.contains v
  | none => false

/-- The row predicate of line 79:
`df["Year"].isin(years) & df["Season"].isin(seasons) & df["Location_Type"].isin(locations)`. -/
def rowKeep (yi si li : Nat) (years seasons locs : List Value) (r : List Cell) : Bool :=
  cellIsin (rowCell r yi) years && cellIsin (rowCell r si) seasons &&
    cellIsin (rowCell r li) locs

/-- Line 79 of `app.py`: `filtered_df = df[...]`. -/
def filteredDf (df : DataFrame) (years seasons locs : List Value) :
    Except String DataFrame := do
  let yi ← keyIdx df "Year"
  let si ← keyIdx df "Season"
  let li ← keyIdx df "Location_Type"
  pure ⟨df.cols, df.rows.filter (rowKeep yi si li years seasons locs)⟩

/-- Spec-side membership: the cell holds a value and that value belongs to
the selection set. -/
def cellHasValueIn (c : Cell) (vs : List Value) : Prop :=
  match c with
  | some v => v ∈ vs
  | none => False

instance (c : Cell) (vs : List Value) : Decidable (cellHasValueIn c vs) := by
  cases c <;> simp only [cellHasValueIn] <;> infer_instance

/-- Spec-side row predicate, from the spec's words: the row's Year, Season
and Location_Type values are each a member of the corresponding set. -/
def specKeep (yi si li : Nat) (years seasons locs : List Value) (r : List Cell) : Prop :=
  cellHasValueIn (rowCell r yi) years ∧ cellHasValueIn (rowCell r si) seasons ∧
    cellHasValueIn (rowCell r li) locs

instance (yi si li : Nat) (ys ss ls : List Value) (r : List Cell) :
    Decidable (specKeep yi si li ys ss ls r) := by
  unfold specKeep; infer_instance

/-- Shared sample table used by the concrete witnesses: every column of the
dataset, three rows. -/
def sampleDf : DataFrame :=
  ⟨["Year", "Season", "Location_Type", "Scientific_Name", "Observer", "Plot_Name",
    "ID_Method", "Sex", "Start_Time", "Temperature", "Humidity", "Interval_Length",
    "Count", "Distance", "Disturbance", "Flyover_Observed", "PIF_Watchlist_Status",
    "AOU_Code"],
   [[some (.num 2020), some (.str "Spring"), some (.str "Forest"), some (.str "A"),
     some (.str "O1"), some (.str "P1"), some (.str "Song"), some (.str "M"),
     some (.str "05:30"), some (.num 20), some (.num 50), some (.num 5),
     some (.num 3), some (.num 10), some (.str "No"), some (.str "FALSE"),
     some (.str "FALSE"), some (.num 100)],
    [some (.num 2021), some (.str "Winter"), some (.str "Grassland"), some (.str "B"),
     some (.str "O2"), some (.str "P2"), some (.str "Sight"), some (.str "F"),
     some (.str "06:10"), some (.num 10), some (.num 70), some (.num 6),
     some (.num 1), some (.num 25), some (.str "Yes"), some (.str "TRUE"),
     some (.str "FALSE"), some (.num 200)],
    [some (.num 2021), some (.str "Spring"), some (.str "Forest"), some (.str "A"),
     some (.str "O1"), some (.str "P1"), some (.str "Song"), some (.str "U"),
     some (.str "07:00"), some (.num 22), some (.num 55), some (.num 5),
     some (.num 2), some (.num 15), some (.str "No"), some (.str "FALSE"),
     some (.str "TRUE"), some (.num 100)]]⟩

/-- A loaded table whose single row has a missing Year cell: the sidebar
option set `df["Year"].dropna().unique()` is then empty and `isin` drops
the row. -/
def missingYearDf : DataFrame :=
  ⟨["Year", "Season", "Location_Type"],
   [[none, some (.str "Spring"), some (.str "Forest")]]⟩

/-- pandas `series.nunique()`: the number of distinct non-missing values
(lines 86–87 of `app.py`). -/
def nunique (df : DataFrame) (c : String) : Except String Nat :=
  (df.column c).map (fun cells => (cells.filterMap id).dedup.length)

/-- Spec-side notion: the number of distinct values appearing in a column
(missing cells hold no value), as the cardinality of the set of values. -/
def distinctValueCount (cells : List Cell) : Nat :=
  (cells.filterMap id).toFinset.card

/-- Model of `groupby(key)[target].count()`: pandas drops rows whose group key is
missing and counts only the non-missing `target` cells of each group.
(pandas additionally sorts the group keys; key order is irrelevant to the
claims below, so groups are listed in first-occurrence order.) -/
def groupbyCount (df : DataFrame) (key target : String) :
    Except String (List (Value × Nat)) := do
  let ki ← keyIdx df key
  let ti ← keyIdx df target
  pure ((dropnaUnique (df.rows.map (fun r => rowCell r ki))).map
    (fun k => (k, (df.rows.filter
      (fun r => rowCell r ki == some k && (rowCell r ti).isSome)).length)))

/-- Model of `groupby(key)[target].nunique()`: distinct non-missing `target` values
per non-missing group key. -/
def groupbyNunique (df : DataFrame) (key target : String) :
    Except String (List (Value × Nat)) := do
  let ki ← keyIdx df key
  let ti ← keyIdx df target
  pure ((dropnaUnique (df.rows.map (fun r => rowCell r ki))).map
    (fun k => (k, (dropnaUnique ((df.rows.filter
      (fun r => rowCell r ki == some k)).map (fun r => rowCell r ti))).length)))

/-- The (unsorted) contents of `series.value_counts()`: each distinct
non-missing value with the number of cells holding it. -/
def rawCounts (cells : List Cell) : List (Value × Nat) :=
  (dropnaUnique cells).map (fun k => (k, cells.count (some k)))

/-- Descending sort by count, as `value_counts()` /
`sort_values(ascending=False)` produce.  (Any sorted permutation embeds
the pandas sort; the order of tied categories is unspecified there.) -/
def sortCountDesc (xs : List (Value × Nat)) : List (Value × Nat) :=
  List.insertionSort (fun a b => b.2 ≤ a.2) xs

/-- Model of `series.value_counts()`: non-missing value frequencies, most frequent
first. -/
def valueCounts (df : DataFrame) (c : String) : Except String (List (Value × Nat)) :=
  (df.column c).map (fun cells => sortCountDesc (rawCounts cells))

/-- Line 102 of `app.py`:
`filtered_df["Start_Hour"] = pd.to_datetime(filtered_df["Start_Time"], errors="coerce").dt.hour`.
The datetime parse is abstracted as `toHour`; a missing or unparsable
`Start_Time` yields a missing `Start_Hour`. -/
def addStartHour (toHour : Value → Option Value) (df : DataFrame) :
    Except String DataFrame := do
  let ti ← keyIdx df "Start_Time"
  pure ⟨df.cols ++ ["Start_Hour"],
    df.rows.map (fun r => r ++ [(rowCell r ti).bind toHour])⟩

/-- The `season_counts` view (line 98). -/
def seasonCounts (df : DataFrame) : Except String (List (Value × Nat)) :=
  groupbyCount df "Season" "Scientific_Name"

/-- The `hour_counts` view (lines 102–103). -/
def hourCounts (toHour : Value → Option Value) (df : DataFrame) :
    Except String (List (Value × Nat)) := do
  let d ← addStartHour toHour df
  groupbyCount d "Start_Hour" "Scientific_Name"

/-- The `id_method_counts` view (line 132). -/
def idMethodCounts (df : DataFrame) : Except String (List (Value × Nat)) :=
  valueCounts df "ID_Method"

/-- Sum of the per-category counts of an aggregation view. -/
def sumSnd (xs : List (Value × Nat)) : Nat := (xs.map Prod.snd).sum

/-- A table whose single row passes the filter but has a missing
Scientific_Name cell: `groupby("Season")["Scientific_Name"].count()` then
counts nothing, so the per-category counts sum to 0, not to the filtered
row count 1. -/
def c5Df : DataFrame :=
  ⟨["Year", "Season", "Location_Type", "Scientific_Name", "ID_Method"],
   [[some (.num 2020), some (.str "Spring"), some (.str "Forest"), none,
     some (.str "Song")]]⟩

/-- The sample table with the derived `Start_Hour` column appended, for a
datetime parser that always fails. -/
def sampleDfHour : DataFrame :=
  ⟨sampleDf.cols ++ ["Start_Hour"], sampleDf.rows.map (fun r => r ++ [none])⟩

/-- The `top_species` view (lines 127–128): `value_counts().head(10)`. -/
def topSpecies (df : DataFrame) : Except String (List (Value × Nat)) :=
  (valueCounts df "Scientific_Name").map (fun xs => xs.take 10)

/-- The `obs_counts` view (line 180): `value_counts().head(10)`. -/
def obsCounts (df : DataFrame) : Except String (List (Value × Nat)) :=
  (valueCounts df "Observer").map (fun xs => xs.take 10)

/-- The `aou_counts` view (line 196): `value_counts().head(10)`. -/
def aouCounts (df : DataFrame) : Except String (List (Value × Nat)) :=
  (valueCounts df "AOU_Code").map (fun xs => xs.take 10)

/-- The `plot_counts` view (line 117): per-plot species diversity, sorted
descending, `head(10)`. -/
def plotCounts (df : DataFrame) : Except String (List (Value × Nat)) :=
  (groupbyNunique df "Plot_Name" "Scientific_Name").map
    (fun xs => (sortCountDesc xs).take 10)

/-- Predicate: `sel` is a top-10 selection of the aggregate table `all`: at most 10
categories, sorted by descending aggregate, and together with the
unselected remainder a permutation of `all` in which every unselected
aggregate is at most every selected one. -/
def isTop10 (sel all : List (Value × Nat)) : Prop :=
  sel.length ≤ 10 ∧ List.Sorted (fun a b : Value × Nat => b.2 ≤ a.2) sel ∧
    ∃ rest, (sel ++ rest).Perm all ∧ ∀ x ∈ sel, ∀ y ∈ rest, y.2 ≤ x.2

instance : IsTotal (Value × Nat) (fun a b => b.2 ≤ a.2) :=
  ⟨fun a b => Nat.le_total b.2 a.2⟩

instance : IsTrans (Value × Nat) (fun a b => b.2 ≤ a.2) :=
  ⟨fun _ _ _ h1 h2 => le_trans h2 h1⟩

/-- The five columns coerced to numbers by `load_data`. -/
def numericCols : List String :=
  ["Interval_Length", "Temperature", "Humidity", "Count", "Distance"]

/-- Model of `pd.to_numeric(cell, errors="coerce")` on one cell, for an abstract
numeric-literal reader `parse`: numbers pass through, a string parses or
becomes the missing marker, missing stays missing. -/
def coerceCell (parse : String → Option Int) : Cell → Cell
  | none => none
  | some (.num n) => some (.num n)
  | some (.str s) => (parse s).map .num

/-- Apply `coerceCell` to the cells of a row whose positions are in
`idxs`, counting positions from `j`. -/
def coerceRow (parse : String → Option Int) (idxs : List Nat) : Nat → List Cell → List Cell
  | _, [] => []
  | j, c :: cs =>
    (if j ∈ idxs then coerceCell parse c else c) :: coerceRow parse idxs (j + 1) cs

/-- The body of `load_data` after the file read: for each of the five numeric columns
present in the frame, coerce its cells; everything else is untouched. -/
def loadData (parse : String → Option Int) (raw : DataFrame) : DataFrame :=
  ⟨raw.cols, raw.rows.map (coerceRow parse (numericCols.filterMap raw.colIdx) 0)⟩

/-- The whole of `load_data` including the `pd.read_csv` call: the read result is an
`Except` (a missing or malformed file is `.error`), and the body applies
the numeric coercion with no exception handling of its own. -/
def loadPipeline (parse : String → Option Int)
    (readResult : Except String DataFrame) : Except String DataFrame :=
  readResult.map (loadData parse)

/-- A raw table as `read_csv` delivers it: one numeric column
(Temperature) with one unparsable cell. -/
def rawCsvDf : DataFrame :=
  ⟨["Year", "Temperature", "Notes"],
   [[some (.str "2020"), some (.str "abc"), some (.str "hello")],
    [some (.str "2021"), some (.str "5"), none]]⟩

/-- A concrete stand-in for the pandas numeric reader, for the loader
witness. -/
def parse0 : String → Option Int := fun s => if s = "5" then some 5 else none

/-- Resolve several column names at once; first missing column raises. -/
def keyIdxs (df : DataFrame) : List String → Except String (List Nat)
  | [] => .ok []
  | c :: cs => do
    let i ← keyIdx df c
    let is ← keyIdxs df cs
    pure (i :: is)

/-- Model of `df.dropna(subset=cs)`: keep the rows whose cells in all the listed
columns are present; a listed column that is absent raises `KeyError`. -/
def dropnaSubset (df : DataFrame) (cs : List String) : Except String DataFrame := do
  let idxs ← keyIdxs df cs
  pure ⟨df.cols, df.rows.filter (fun r => idxs.all (fun i => (rowCell r i).isSome))⟩

/-- The `fig8` view (lines 148–154): scatter over
`dropna(subset=["Temperature","Humidity","Interval_Length"])`, also
reading the Season and Scientific_Name columns. -/
def scatterView (df : DataFrame) : Except String (List (List Cell)) := do
  let d ← dropnaSubset df ["Temperature", "Humidity", "Interval_Length"]
  let _ ← keyIdx d "Season"
  let _ ← keyIdx d "Scientific_Name"
  pure d.rows

/-- The `fig10` view (line 168): histogram of `dropna(subset=["Distance"])`. -/
def histogramView (df : DataFrame) : Except String (List Cell) := do
  let d ← dropnaSubset df ["Distance"]
  d.column "Distance"

/-- Everything the rendered page shows: the three KPIs and the data of
the fourteen charts. -/
structure Page where
  totalObs : Nat
  uniqueSpecies : Nat
  observers : Nat
  seasonData : List (Value × Nat)
  hourData : List (Value × Nat)
  locData : List (Value × Nat)
  plotTop : List (Value × Nat)
  speciesTop : List (Value × Nat)
  idMethodData : List (Value × Nat)
  sexData : List (Value × Nat)
  scatterRows : List (List Cell)
  disturbData : List (Value × Nat)
  distanceCells : List Cell
  flyoverData : List (Value × Nat)
  observerTop : List (Value × Nat)
  watchlistData : List (Value × Nat)
  aouTop : List (Value × Nat)

deriving DecidableEq, Repr

/-- Lines 84–199 of `app.py` run top to bottom on the filtered frame; the
first uncaught exception (a `KeyError` from a missing column) aborts the
rest of the page.  Line 102 adds the derived `Start_Hour` column, used by
every later view. -/
def renderPage (toHour : Value → Option Value) (fdf : DataFrame) :
    Except String Page := do
  let us ← nunique fdf "Scientific_Name"
  let ob ← nunique fdf "Observer"
  let sc ← seasonCounts fdf
  let d2 ← addStartHour toHour fdf
  let hc ← groupbyCount d2 "Start_Hour" "Scientific_Name"
  let lc ← groupbyNunique d2 "Location_Type" "Scientific_Name"
  let pc ← plotCounts d2
  let ts ← topSpecies d2
  let im ← idMethodCounts d2
  let sx ← valueCounts d2 "Sex"
  let scat ← scatterView d2
  let dc ← valueCounts d2 "Disturbance"
  let hist ← histogramView d2
  let fc ← valueCounts d2 "Flyover_Observed"
  let oc ← obsCounts d2
  let wc ← valueCounts d2 "PIF_Watchlist_Status"
  let ac ← aouCounts d2
  pure ⟨fdf.rows.length, us, ob, sc, hc, lc, pc, ts, im, sx, scat, dc, hist,
    fc, oc, wc, ac⟩

/-- The columns the fourteen views and the KPIs read from the filtered
frame. -/
def viewCols : List String :=
  ["Scientific_Name", "Observer", "Season", "Start_Time", "Location_Type",
   "Plot_Name", "ID_Method", "Sex", "Temperature", "Humidity",
   "Interval_Length", "Disturbance", "Distance", "Flyover_Observed",
   "PIF_Watchlist_Status", "AOU_Code"]

/-- The whole script: load (read result abstracted as an `Except`),
filter, render. -/
def runApp (parse : String → Option Int) (toHour : Value → Option Value)
    (readResult : Except String DataFrame) (ys ss ls : List Value) :
    Except String Page := do
  let df ← loadPipeline parse readResult
  let fdf ← filteredDf df ys ss ls
  renderPage toHour fdf

/-- The sample table's columns with every cell missing: all fourteen
views degrade to empty aggregates and the page still renders. -/
def allMissingDf : DataFrame :=
  ⟨sampleDf.cols, [List.replicate 18 (none : Cell)]⟩

/-- The sample row with the Plot_Name column removed from the table. -/
def noPlotDf : DataFrame :=
  ⟨["Year", "Season", "Location_Type", "Scientific_Name", "Observer",
    "ID_Method", "Sex", "Start_Time", "Temperature", "Humidity",
    "Interval_Length", "Count", "Distance", "Disturbance", "Flyover_Observed",
    "PIF_Watchlist_Status", "AOU_Code"],
   [[some (.num 2020), some (.str "Spring"), some (.str "Forest"),
     some (.str "A"), some (.str "O1"), some (.str "Song"), some (.str "M"),
     some (.str "05:30"), some (.num 20), some (.num 50), some (.num 5),
     some (.num 3), some (.num 10), some (.str "No"), some (.str "FALSE"),
     some (.str "FALSE"), some (.num 100)]]⟩

theorem cellHasValueIn_iff (c : Cell) (vs : List Value) :
    cellHasValueIn c vs ↔ ∃ v, c = some v ∧ v ∈ vs := by
  cases c <;> simp [cellHasValueIn]

theorem cellIsin_eq_decide (c : Cell) (vs : List Value) :
    cellIsin c vs = decide (cellHasValueIn c vs) := by
  cases c <;> simp [cellIsin, cellHasValueIn]

theorem rowKeep_eq_decide (yi si li : Nat) (ys ss ls : List Value) (r : List Cell) :
    rowKeep yi si li ys ss ls r = decide (specKeep yi si li ys ss ls r) := by
  simp [rowKeep, specKeep, cellIsin_eq_decide, Bool.and_assoc]

theorem filteredDf_ok (df : DataFrame) (ys ss ls : List Value)
    (yi si li : Nat) (h1 : keyIdx df "Year" = .ok yi)
    (h2 : keyIdx df "Season" = .ok si)
    (h3 : keyIdx df "Location_Type" = .ok li) :
    filteredDf df ys ss ls =
      .ok ⟨df.cols, df.rows.filter (rowKeep yi si li ys ss ls)⟩ := by
  simp [filteredDf, h1, h2, h3, Bind.bind, Except.bind, Pure.pure, Except.pure]

theorem cellIsin_nil (c : Cell) : cellIsin c [] = false := by
  cases c <;> simp [cellIsin]

theorem cellIsin_mono (c : Cell) (vs vs' : List Value) (hsub : ∀ v ∈ vs, v ∈ vs')
    (h : cellIsin c vs = true) : cellIsin c vs' = true := by
  cases c with
  | none => simp [cellIsin] at h
  | some v =>
    simp only [cellIsin, List.contains, List.elem_iff] at h ⊢
    exact hsub v h

/-- C1 — The filter returns exactly the rows whose Year, Season and
Location_Type values are each a member of the corresponding selection set
(AND across dimensions, OR within each); hence the filtered row count is
at most the total count and every result row satisfies all three
memberships. -/
theorem filter_returns_exact_subset (df : DataFrame) (ys ss ls : List Value)
    (yi si li : Nat) (out : DataFrame)
    (h1 : keyIdx df "Year" = .ok yi) (h2 : keyIdx df "Season" = .ok si)
    (h3 : keyIdx df "Location_Type" = .ok li)
    (hf : filteredDf df ys ss ls = .ok out) :
    out.rows = df.rows.filter (fun r => decide (specKeep yi si li ys ss ls r)) ∧
    out.rows.length ≤ df.rows.length ∧
    ∀ r ∈ out.rows, specKeep yi si li ys ss ls r := by
  rw [filteredDf_ok df ys ss ls yi si li h1 h2 h3] at hf
  have hout : out = ⟨df.cols, df.rows.filter (rowKeep yi si li ys ss ls)⟩ :=
    (Except.ok.inj hf).symm
  have hfe : df.rows.filter (rowKeep yi si li ys ss ls) =
      df.rows.filter (fun r => decide (specKeep yi si li ys ss ls r)) :=
    List.filter_congr (fun r _ => rowKeep_eq_decide yi si li ys ss ls r)
  subst hout
  refine ⟨hfe, List.length_filter_le _ _, ?_⟩
  intro r hr
  have := (List.mem_filter.mp hr).2
  rw [rowKeep_eq_decide] at this
  exact of_decide_eq_true this

/-- Witness for C1 at a concrete table and concrete selections. -/
theorem filter_returns_exact_subset_witness :
    (sampleDf.rows.filter (fun r =>
        decide (specKeep 0 1 2 [Value.num 2021] [Value.str "Spring", Value.str "Winter"]
          [Value.str "Forest", Value.str "Grassland"] r))).length = 2 ∧
    ((sampleDf.rows.filter (rowKeep 0 1 2 [Value.num 2021]
        [Value.str "Spring", Value.str "Winter"]
        [Value.str "Forest", Value.str "Grassland"])) =
      sampleDf.rows.filter (fun r =>
        decide (specKeep 0 1 2 [Value.num 2021] [Value.str "Spring", Value.str "Winter"]
          [Value.str "Forest", Value.str "Grassland"] r)) ∧
    (sampleDf.rows.filter (rowKeep 0 1 2 [Value.num 2021]
        [Value.str "Spring", Value.str "Winter"]
        [Value.str "Forest", Value.str "Grassland"])).length ≤ sampleDf.rows.length ∧
    ∀ r ∈ sampleDf.rows.filter (rowKeep 0 1 2 [Value.num 2021]
        [Value.str "Spring", Value.str "Winter"]
        [Value.str "Forest", Value.str "Grassland"]),
      specKeep 0 1 2 [Value.num 2021] [Value.str "Spring", Value.str "Winter"]
        [Value.str "Forest", Value.str "Grassland"] r) :=
  ⟨by decide,
   filter_returns_exact_subset sampleDf [Value.num 2021]
     [Value.str "Spring", Value.str "Winter"] [Value.str "Forest", Value.str "Grassland"]
     0 1 2
     ⟨sampleDf.cols, sampleDf.rows.filter (rowKeep 0 1 2 [Value.num 2021]
        [Value.str "Spring", Value.str "Winter"]
        [Value.str "Forest", Value.str "Grassland"])⟩
     (by decide) (by decide) (by decide) (by decide)⟩

/-- C3 — If any one of the three selection sets is empty, the filter
returns zero rows. -/
theorem filter_empty_selection_empty (df : DataFrame) (ys ss ls : List Value)
    (out : DataFrame) (he : ys = [] ∨ ss = [] ∨ ls = [])
    (hf : filteredDf df ys ss ls = .ok out) : out.rows = [] := by
  cases hy : keyIdx df "Year" with
  | error e => simp [filteredDf, hy, Bind.bind, Except.bind] at hf
  | ok yi =>
  cases hs : keyIdx df "Season" with
  | error e => simp [filteredDf, hy, hs, Bind.bind, Except.bind] at hf
  | ok si =>
  cases hl : keyIdx df "Location_Type" with
  | error e => simp [filteredDf, hy, hs, hl, Bind.bind, Except.bind] at hf
  | ok li =>
  rw [filteredDf_ok df ys ss ls yi si li hy hs hl] at hf
  have hout : out = ⟨df.cols, df.rows.filter (rowKeep yi si li ys ss ls)⟩ :=
    (Except.ok.inj hf).symm
  subst hout
  refine List.filter_eq_nil_iff.mpr (fun r _ => ?_)
  rcases he with h | h | h <;> subst h <;>
    simp [rowKeep, cellIsin_nil]

/-- Witness for C3: an empty year selection on the sample table. -/
theorem filter_empty_selection_empty_witness :
    filteredDf sampleDf [] [Value.str "Spring"] [Value.str "Forest"] =
        .ok ⟨sampleDf.cols, []⟩ ∧
    (⟨sampleDf.cols, []⟩ : DataFrame).rows = [] :=
  ⟨by decide,
   filter_empty_selection_empty sampleDf [] [Value.str "Spring"] [Value.str "Forest"]
     ⟨sampleDf.cols, []⟩ (Or.inl rfl) (by decide)⟩

/-- Counterexample to C2 as stated: filtering `missingYearDf` with the
three observed-value sets loses its row, so the result is not the full
table. -/
theorem filter_all_observed_counterexample :
    filteredDf missingYearDf (observedValues missingYearDf "Year")
        (observedValues missingYearDf "Season")
        (observedValues missingYearDf "Location_Type") =
      .ok ⟨missingYearDf.cols, []⟩ ∧
    missingYearDf.rows.length = 1 := by
  constructor <;> decide

/-- C2 (amended) — If every row has a present (non-missing) Year, Season
and Location_Type cell, filtering with the three observed-value sets
returns the full table. -/
theorem filter_all_observed_full (df : DataFrame) (yi si li : Nat)
    (h1 : keyIdx df "Year" = .ok yi) (h2 : keyIdx df "Season" = .ok si)
    (h3 : keyIdx df "Location_Type" = .ok li)
    (hpres : ∀ r ∈ df.rows,
      (rowCell r yi).isSome ∧ (rowCell r si).isSome ∧ (rowCell r li).isSome) :
    filteredDf df (observedValues df "Year") (observedValues df "Season")
      (observedValues df "Location_Type") = .ok ⟨df.cols, df.rows⟩ := by
  rw [filteredDf_ok df _ _ _ yi si li h1 h2 h3]
  have hcol : ∀ (c : String) (i : Nat), keyIdx df c = .ok i →
      ∀ r ∈ df.rows, (rowCell r i).isSome = true →
        cellIsin (rowCell r i) (observedValues df c) = true := by
    intro c i hc r hr hs
    cases hv : rowCell r i with
    | none => rw [hv] at hs; simp at hs
    | some v =>
      simp only [cellIsin, List.contains, List.elem_iff]
      show v ∈ observedValues df c
      have hcells : (df.column c).toOption.getD [] = df.rows.map (fun r => rowCell r i) := by
        simp [DataFrame.column, hc, Except.map, Except.toOption]
      simp only [observedValues, dropnaUnique, hcells, List.mem_dedup, List.mem_filterMap]
      exact ⟨rowCell r i, List.mem_map.mpr ⟨r, hr, rfl⟩, by rw [hv]; rfl⟩
  have : df.rows.filter (rowKeep yi si li (observedValues df "Year")
      (observedValues df "Season") (observedValues df "Location_Type")) = df.rows := by
    refine List.filter_eq_self.mpr (fun r hr => ?_)
    obtain ⟨hy, hs, hl⟩ := hpres r hr
    simp only [rowKeep, Bool.and_eq_true]
    exact ⟨⟨hcol "Year" yi h1 r hr hy, hcol "Season" si h2 r hr hs⟩,
      hcol "Location_Type" li h3 r hr hl⟩
  rw [this]

/-- Witness for the amended C2 on the (fully populated) sample table. -/
theorem filter_all_observed_full_witness :
    filteredDf sampleDf (observedValues sampleDf "Year")
        (observedValues sampleDf "Season") (observedValues sampleDf "Location_Type") =
      .ok ⟨sampleDf.cols, sampleDf.rows⟩ :=
  filter_all_observed_full sampleDf 0 1 2 (by decide) (by decide) (by decide) (by decide)

/-- C10 — The filter is monotone in the three selection sets: enlarging
each set keeps every previously selected row, and filtered rows always
appear in the same relative order as in the loaded table (they form a
sublist of it). -/
theorem filter_monotone (df : DataFrame) (ys ss ls ys' ss' ls' : List Value)
    (o1 o2 : DataFrame)
    (hy : ∀ v ∈ ys, v ∈ ys') (hs : ∀ v ∈ ss, v ∈ ss') (hl : ∀ v ∈ ls, v ∈ ls')
    (hf1 : filteredDf df ys ss ls = .ok o1)
    (hf2 : filteredDf df ys' ss' ls' = .ok o2) :
    (∀ r ∈ o1.rows, r ∈ o2.rows) ∧ o1.rows.Sublist o2.rows ∧
      o1.rows.Sublist df.rows ∧ o2.rows.Sublist df.rows := by
  cases hyi : keyIdx df "Year" with
  | error e => simp [filteredDf, hyi, Bind.bind, Except.bind] at hf1
  | ok yi =>
  cases hsi : keyIdx df "Season" with
  | error e => simp [filteredDf, hyi, hsi, Bind.bind, Except.bind] at hf1
  | ok si =>
  cases hli : keyIdx df "Location_Type" with
  | error e => simp [filteredDf, hyi, hsi, hli, Bind.bind, Except.bind] at hf1
  | ok li =>
  rw [filteredDf_ok df ys ss ls yi si li hyi hsi hli] at hf1
  rw [filteredDf_ok df ys' ss' ls' yi si li hyi hsi hli] at hf2
  have ho1 : o1 = ⟨df.cols, df.rows.filter (rowKeep yi si li ys ss ls)⟩ :=
    (Except.ok.inj hf1).symm
  have ho2 : o2 = ⟨df.cols, df.rows.filter (rowKeep yi si li ys' ss' ls')⟩ :=
    (Except.ok.inj hf2).symm
  subst ho1; subst ho2
  have hsub : (df.rows.filter (rowKeep yi si li ys ss ls)).Sublist
      (df.rows.filter (rowKeep yi si li ys' ss' ls')) := by
    refine List.monotone_filter_right _ (fun r hr => ?_)
    simp only [rowKeep, Bool.and_eq_true] at hr ⊢
    exact ⟨⟨cellIsin_mono _ _ _ hy hr.1.1, cellIsin_mono _ _ _ hs hr.1.2⟩,
      cellIsin_mono _ _ _ hl hr.2⟩
  exact ⟨fun r hr => hsub.subset hr, hsub, List.filter_sublist _,
    List.filter_sublist _⟩

/-- Witness for C10: growing the year selection on the sample table. -/
theorem filter_monotone_witness :
    (∀ r ∈ (⟨sampleDf.cols, sampleDf.rows.filter (rowKeep 0 1 2 [Value.num 2021]
        [Value.str "Spring", Value.str "Winter"]
        [Value.str "Forest", Value.str "Grassland"])⟩ : DataFrame).rows,
      r ∈ (⟨sampleDf.cols, sampleDf.rows.filter (rowKeep 0 1 2
        [Value.num 2020, Value.num 2021] [Value.str "Spring", Value.str "Winter"]
        [Value.str "Forest", Value.str "Grassland"])⟩ : DataFrame).rows) ∧
    (sampleDf.rows.filter (rowKeep 0 1 2 [Value.num 2021]
        [Value.str "Spring", Value.str "Winter"]
        [Value.str "Forest", Value.str "Grassland"])).Sublist
      (sampleDf.rows.filter (rowKeep 0 1 2 [Value.num 2020, Value.num 2021]
        [Value.str "Spring", Value.str "Winter"]
        [Value.str "Forest", Value.str "Grassland"])) ∧
    (sampleDf.rows.filter (rowKeep 0 1 2 [Value.num 2021]
        [Value.str "Spring", Value.str "Winter"]
        [Value.str "Forest", Value.str "Grassland"])).Sublist sampleDf.rows ∧
    (sampleDf.rows.filter (rowKeep 0 1 2 [Value.num 2020, Value.num 2021]
        [Value.str "Spring", Value.str "Winter"]
        [Value.str "Forest", Value.str "Grassland"])).Sublist sampleDf.rows :=
  filter_monotone sampleDf [Value.num 2021]
    [Value.str "Spring", Value.str "Winter"] [Value.str "Forest", Value.str "Grassland"]
    [Value.num 2020, Value.num 2021] [Value.str "Spring", Value.str "Winter"]
    [Value.str "Forest", Value.str "Grassland"] _ _
    (by decide) (by decide) (by decide) (by decide) (by decide)

theorem sum_indicator_not_mem (v : Value) (ks : List Value) (h : v ∉ ks) :
    (ks.map (fun k => if v = k then 1 else 0)).sum = 0 := by
  induction ks with
  | nil => rfl
  | cons k ks ih =>
    simp only [List.mem_cons, not_or] at h
    simp [h.1, ih h.2]

theorem sum_indicator_nodup (v : Value) (ks : List Value) (nd : ks.Nodup) (h : v ∈ ks) :
    (ks.map (fun k => if v = k then 1 else 0)).sum = 1 := by
  induction ks with
  | nil => simp at h
  | cons k ks ih =>
    rcases List.mem_cons.mp h with h' | h'
    · subst h'
      have : v ∉ ks := (List.nodup_cons.mp nd).1
      simp [sum_indicator_not_mem v ks this]
    · have hvk : v ≠ k := by
        rintro rfl; exact (List.nodup_cons.mp nd).1 h'
      simp [hvk, ih (List.nodup_cons.mp nd).2 h']

/-- Partition principle: with one bucket per possible key value, the
bucket sizes sum to the number of elements with a present key. -/
theorem sum_filter_partition {α : Type} (l : List α) (key : α → Option Value)
    (P : α → Bool) (ks : List Value) (nd : ks.Nodup)
    (hmem : ∀ x ∈ l, ∀ v, key x = some v → v ∈ ks) :
    (ks.map (fun k => (l.filter (fun x => key x == some k && P x)).length)).sum
      = (l.filter (fun x => (key x).isSome && P x)).length := by
  induction l with
  | nil => simp
  | cons x l ih =>
    have hmem' : ∀ y ∈ l, ∀ v, key y = some v → v ∈ ks :=
      fun y hy => hmem y (List.mem_cons_of_mem _ hy)
    cases hk : key x with
    | none =>
      have hmap : ks.map (fun k => ((x :: l).filter (fun y => key y == some k && P y)).length)
          = ks.map (fun k => (l.filter (fun y => key y == some k && P y)).length) := by
        refine List.map_congr_left (fun k _ => ?_)
        rw [List.filter_cons]
        simp [hk]
      rw [hmap, ih hmem', List.filter_cons]
      simp [hk]
    | some v =>
      have hvks : v ∈ ks := hmem x (List.mem_cons_self x l) v hk
      cases hP : P x with
      | false =>
        have hmap : ks.map (fun k => ((x :: l).filter (fun y => key y == some k && P y)).length)
            = ks.map (fun k => (l.filter (fun y => key y == some k && P y)).length) := by
          refine List.map_congr_left (fun k _ => ?_)
          rw [List.filter_cons]
          simp [hP]
        rw [hmap, ih hmem', List.filter_cons]
        simp [hP]
      | true =>
        have hmap : ks.map (fun k => ((x :: l).filter (fun y => key y == some k && P y)).length)
            = ks.map (fun k => (if v = k then 1 else 0)
                + (l.filter (fun y => key y == some k && P y)).length) := by
          refine List.map_congr_left (fun k _ => ?_)
          rw [List.filter_cons]
          by_cases hvk : v = k
          · subst hvk; simp [hk, hP]; omega
          · have : (some v == some k) = false := by
              simp [hvk]
            simp [hk, hP, this, hvk]
        rw [hmap, List.sum_map_add, ih hmem', sum_indicator_nodup v ks nd hvks,
          List.filter_cons]
        simp [hk, hP]
        omega

/-- Specialization to `groupbyCount`. -/
theorem groupbyCount_sum (df : DataFrame) (key target : String) (ki ti : Nat)
    (res : List (Value × Nat))
    (hk : keyIdx df key = .ok ki) (ht : keyIdx df target = .ok ti)
    (hres : groupbyCount df key target = .ok res) :
    sumSnd res =
      (df.rows.filter (fun r => (rowCell r ki).isSome && (rowCell r ti).isSome)).length := by
  have hres' : res = (dropnaUnique (df.rows.map (fun r => rowCell r ki))).map
      (fun k => (k, (df.rows.filter
        (fun r => rowCell r ki == some k && (rowCell r ti).isSome)).length)) := by
    rw [groupbyCount, hk] at hres
    simp only [Bind.bind, Except.bind, Pure.pure, Except.pure, ht] at hres
    exact (Except.ok.inj hres).symm
  subst hres'
  rw [sumSnd, List.map_map]
  have : ((dropnaUnique (df.rows.map fun r => rowCell r ki)).map
      (Prod.snd ∘ fun k => (k, (df.rows.filter
        (fun r => rowCell r ki == some k && (rowCell r ti).isSome)).length)))
      = (dropnaUnique (df.rows.map fun r => rowCell r ki)).map
        (fun k => (df.rows.filter
          (fun r => rowCell r ki == some k && (rowCell r ti).isSome)).length) := rfl
  rw [this]
  refine sum_filter_partition df.rows (fun r => rowCell r ki) _ _
    (List.nodup_dedup _) (fun r hr v hv => ?_)
  simp only [dropnaUnique, List.mem_dedup, List.mem_filterMap]
  exact ⟨rowCell r ki, List.mem_map.mpr ⟨r, hr, rfl⟩, hv⟩

/-- Specialization to the unsorted `value_counts` table. -/
theorem rawCounts_sum (cells : List Cell) :
    sumSnd (rawCounts cells) = (cells.filter (fun c => c.isSome)).length := by
  rw [rawCounts, sumSnd, List.map_map]
  have h1 : ((dropnaUnique cells).map
      (Prod.snd ∘ fun k => (k, cells.count (some k))))
      = (dropnaUnique cells).map (fun k => cells.count (some k)) := rfl
  rw [h1]
  have h2 : ∀ k : Value, cells.count (some k)
      = (cells.filter (fun c => c == some k && true)).length := by
    intro k
    rw [List.count_eq_countP, List.countP_eq_length_filter]
    simp
  have h3 : ((dropnaUnique cells).map (fun k => cells.count (some k)))
      = (dropnaUnique cells).map
        (fun k => (cells.filter (fun c => c == some k && true)).length) :=
    List.map_congr_left (fun k _ => h2 k)
  rw [h3]
  have h4 := sum_filter_partition cells id (fun _ => true) (dropnaUnique cells)
    (List.nodup_dedup _) (fun c hc v hv => by
      simp only [dropnaUnique, List.mem_dedup, List.mem_filterMap]
      exact ⟨c, hc, hv⟩)
  simpa using h4

/-- Sorting a counts table does not change the sum of its counts. -/
theorem sortCountDesc_sum (xs : List (Value × Nat)) :
    sumSnd (sortCountDesc xs) = sumSnd xs := by
  exact List.Perm.sum_eq (List.Perm.map Prod.snd (List.perm_insertionSort _ xs))

/-- C4 — The KPI "Unique Species" is the number of distinct
Scientific_Name values of the filtered table, and "Observers" the number
of distinct Observer values (missing cells hold no value). -/
theorem kpi_distinct_counts (df : DataFrame) (sn ob : List Cell)
    (h1 : df.column "Scientific_Name" = .ok sn)
    (h2 : df.column "Observer" = .ok ob) :
    nunique df "Scientific_Name" = .ok (distinctValueCount sn) ∧
    nunique df "Observer" = .ok (distinctValueCount ob) := by
  constructor
  · rw [nunique, h1]
    simp [Except.map, distinctValueCount, List.card_toFinset]
  · rw [nunique, h2]
    simp [Except.map, distinctValueCount, List.card_toFinset]

/-- Witness for C4 on the sample table. -/
theorem kpi_distinct_counts_witness :
    nunique sampleDf "Scientific_Name" =
        .ok (distinctValueCount (sampleDf.rows.map (fun r => rowCell r 3))) ∧
    nunique sampleDf "Observer" =
        .ok (distinctValueCount (sampleDf.rows.map (fun r => rowCell r 4))) :=
  kpi_distinct_counts sampleDf (sampleDf.rows.map (fun r => rowCell r 3))
    (sampleDf.rows.map (fun r => rowCell r 4)) (by decide) (by decide)

/-- Counterexample to C5 as stated: on the filtered table `c5Df` the
season view's counts sum to 0 while the filtered row count is 1. -/
theorem countViews_sum_counterexample :
    filteredDf c5Df [Value.num 2020] [Value.str "Spring"] [Value.str "Forest"] =
        .ok c5Df ∧
    seasonCounts c5Df = .ok [(Value.str "Spring", 0)] ∧
    sumSnd [(Value.str "Spring", 0)] = 0 ∧
    c5Df.rows.length = 1 := by
  refine ⟨?_, ?_, ?_, ?_⟩ <;> decide

/-- C5 (amended) — Each count-based view sums to the number of filtered
rows whose group key and counted column are both present; in particular
the sum equals the filtered row count when those cells are never missing
(`value_counts` counts rows per present value, so only key presence
matters there). -/
theorem countViews_sum (df : DataFrame) (toHour : Value → Option Value)
    (d : DataFrame) (si ni hi ni2 : Nat)
    (sc hc ic : List (Value × Nat)) (mcells : List Cell)
    (hsi : keyIdx df "Season" = .ok si) (hni : keyIdx df "Scientific_Name" = .ok ni)
    (hsc : seasonCounts df = .ok sc)
    (hd : addStartHour toHour df = .ok d)
    (hhi : keyIdx d "Start_Hour" = .ok hi) (hni2 : keyIdx d "Scientific_Name" = .ok ni2)
    (hhc : hourCounts toHour df = .ok hc)
    (hmc : df.column "ID_Method" = .ok mcells)
    (hic : idMethodCounts df = .ok ic) :
    (sumSnd sc = (df.rows.filter
        (fun r => (rowCell r si).isSome && (rowCell r ni).isSome)).length ∧
      ((∀ r ∈ df.rows, (rowCell r si).isSome ∧ (rowCell r ni).isSome) →
        sumSnd sc = df.rows.length)) ∧
    sumSnd hc = (d.rows.filter
        (fun r => (rowCell r hi).isSome && (rowCell r ni2).isSome)).length ∧
    (sumSnd ic = (mcells.filter (fun c => c.isSome)).length ∧
      mcells.length = df.rows.length ∧
      ((∀ c ∈ mcells, c.isSome) → sumSnd ic = df.rows.length)) := by
  have hseason : sumSnd sc = (df.rows.filter
      (fun r => (rowCell r si).isSome && (rowCell r ni).isSome)).length :=
    groupbyCount_sum df "Season" "Scientific_Name" si ni sc hsi hni hsc
  have hhour : sumSnd hc = (d.rows.filter
      (fun r => (rowCell r hi).isSome && (rowCell r ni2).isSome)).length := by
    have : groupbyCount d "Start_Hour" "Scientific_Name" = .ok hc := by
      rw [hourCounts] at hhc
      simp only [Bind.bind, Except.bind, hd] at hhc
      exact hhc
    exact groupbyCount_sum d "Start_Hour" "Scientific_Name" hi ni2 hc hhi hni2 this
  have hmlen : mcells.length = df.rows.length := by
    cases hmi : keyIdx df "ID_Method" with
    | error e => rw [DataFrame.column, hmi] at hmc; simp [Except.map] at hmc
    | ok mi =>
      rw [DataFrame.column, hmi] at hmc
      simp only [Except.map] at hmc
      have : mcells = df.rows.map (fun r => rowCell r mi) := (Except.ok.inj hmc).symm
      rw [this, List.length_map]
  have hid : sumSnd ic = (mcells.filter (fun c => c.isSome)).length := by
    have hic' : ic = sortCountDesc (rawCounts mcells) := by
      rw [idMethodCounts, valueCounts, hmc] at hic
      simp only [Except.map] at hic
      exact (Except.ok.inj hic).symm
    rw [hic', sortCountDesc_sum, rawCounts_sum]
  refine ⟨⟨hseason, fun hpres => ?_⟩, hhour, hid, hmlen, fun hpres => ?_⟩
  · rw [hseason]
    have : df.rows.filter (fun r => (rowCell r si).isSome && (rowCell r ni).isSome) =
        df.rows :=
      List.filter_eq_self.mpr (fun r hr => by
        obtain ⟨h1, h2⟩ := hpres r hr
        simp [h1, h2])
    rw [this]
  · rw [hid, ← hmlen]
    have : mcells.filter (fun c => c.isSome) = mcells :=
      List.filter_eq_self.mpr (fun c hc => hpres c hc)
    rw [this]

/-- Witness for the amended C5 on the sample table. -/
theorem countViews_sum_witness :
    (sumSnd [(Value.str "Winter", 1), (Value.str "Spring", 2)] =
        (sampleDf.rows.filter
          (fun r => (rowCell r 1).isSome && (rowCell r 3).isSome)).length ∧
      ((∀ r ∈ sampleDf.rows, (rowCell r 1).isSome ∧ (rowCell r 3).isSome) →
        sumSnd [(Value.str "Winter", 1), (Value.str "Spring", 2)] =
          sampleDf.rows.length)) ∧
    sumSnd [] = (sampleDfHour.rows.filter
        (fun r => (rowCell r 18).isSome && (rowCell r 3).isSome)).length ∧
    (sumSnd [(Value.str "Song", 2), (Value.str "Sight", 1)] =
        ((sampleDf.rows.map (fun r => rowCell r 6)).filter
          (fun c => c.isSome)).length ∧
      (sampleDf.rows.map (fun r => rowCell r 6)).length = sampleDf.rows.length ∧
      ((∀ c ∈ sampleDf.rows.map (fun r => rowCell r 6), c.isSome) →
        sumSnd [(Value.str "Song", 2), (Value.str "Sight", 1)] =
          sampleDf.rows.length)) :=
  countViews_sum sampleDf (fun _ => none) sampleDfHour 1 3 18 3
    [(Value.str "Winter", 1), (Value.str "Spring", 2)] []
    [(Value.str "Song", 2), (Value.str "Sight", 1)]
    (sampleDf.rows.map (fun r => rowCell r 6))
    (by decide) (by decide) (by decide) (by decide) (by decide) (by decide)
    (by decide) (by decide) (by decide)

theorem take10_isTop10 (xs : List (Value × Nat)) :
    isTop10 ((sortCountDesc xs).take 10) xs := by
  have hsorted : List.Sorted (fun a b : Value × Nat => b.2 ≤ a.2) (sortCountDesc xs) :=
    List.sorted_insertionSort _ xs
  refine ⟨List.length_take_le 10 _,
    List.Pairwise.sublist (List.take_sublist 10 _) hsorted,
    (sortCountDesc xs).drop 10, ?_, ?_⟩
  · rw [List.take_append_drop]
    exact List.perm_insertionSort _ xs
  · have h := hsorted
    rw [← List.take_append_drop 10 (sortCountDesc xs)] at h
    exact fun x hx y hy => (List.pairwise_append.mp h).2.2 x hx y hy

/-- C9 — Each top-10 view (Top 10 Plots by species diversity, Top 10
Observed Species, Top 10 Observers, Top 10 AOU Codes) returns at most 10
categories — those with the greatest aggregate values — sorted in
descending order of the aggregate. -/
theorem top10_views (df : DataFrame) (allP : List (Value × Nat))
    (scells ocells acells : List Cell)
    (hP : groupbyNunique df "Plot_Name" "Scientific_Name" = .ok allP)
    (hs : df.column "Scientific_Name" = .ok scells)
    (ho : df.column "Observer" = .ok ocells)
    (ha : df.column "AOU_Code" = .ok acells) :
    (plotCounts df = .ok ((sortCountDesc allP).take 10) ∧
      isTop10 ((sortCountDesc allP).take 10) allP) ∧
    (topSpecies df = .ok ((sortCountDesc (rawCounts scells)).take 10) ∧
      isTop10 ((sortCountDesc (rawCounts scells)).take 10) (rawCounts scells)) ∧
    (obsCounts df = .ok ((sortCountDesc (rawCounts ocells)).take 10) ∧
      isTop10 ((sortCountDesc (rawCounts ocells)).take 10) (rawCounts ocells)) ∧
    (aouCounts df = .ok ((sortCountDesc (rawCounts acells)).take 10) ∧
      isTop10 ((sortCountDesc (rawCounts acells)).take 10) (rawCounts acells)) := by
  refine ⟨⟨?_, take10_isTop10 allP⟩, ⟨?_, take10_isTop10 (rawCounts scells)⟩,
    ⟨?_, take10_isTop10 (rawCounts ocells)⟩, ⟨?_, take10_isTop10 (rawCounts acells)⟩⟩
  · rw [plotCounts, hP]; rfl
  · rw [topSpecies, valueCounts, hs]; rfl
  · rw [obsCounts, valueCounts, ho]; rfl
  · rw [aouCounts, valueCounts, ha]; rfl

/-- Witness for C9 on the sample table. -/
theorem top10_views_witness :
    (plotCounts sampleDf =
        .ok ((sortCountDesc [(Value.str "P2", 1), (Value.str "P1", 1)]).take 10) ∧
      isTop10 ((sortCountDesc [(Value.str "P2", 1), (Value.str "P1", 1)]).take 10)
        [(Value.str "P2", 1), (Value.str "P1", 1)]) ∧
    (topSpecies sampleDf =
        .ok ((sortCountDesc (rawCounts (sampleDf.rows.map (fun r => rowCell r 3)))).take 10) ∧
      isTop10 ((sortCountDesc (rawCounts (sampleDf.rows.map (fun r => rowCell r 3)))).take 10)
        (rawCounts (sampleDf.rows.map (fun r => rowCell r 3)))) ∧
    (obsCounts sampleDf =
        .ok ((sortCountDesc (rawCounts (sampleDf.rows.map (fun r => rowCell r 4)))).take 10) ∧
      isTop10 ((sortCountDesc (rawCounts (sampleDf.rows.map (fun r => rowCell r 4)))).take 10)
        (rawCounts (sampleDf.rows.map (fun r => rowCell r 4)))) ∧
    (aouCounts sampleDf =
        .ok ((sortCountDesc (rawCounts (sampleDf.rows.map (fun r => rowCell r 17)))).take 10) ∧
      isTop10 ((sortCountDesc (rawCounts (sampleDf.rows.map (fun r => rowCell r 17)))).take 10)
        (rawCounts (sampleDf.rows.map (fun r => rowCell r 17)))) :=
  top10_views sampleDf [(Value.str "P2", 1), (Value.str "P1", 1)]
    (sampleDf.rows.map (fun r => rowCell r 3))
    (sampleDf.rows.map (fun r => rowCell r 4))
    (sampleDf.rows.map (fun r => rowCell r 17))
    (by decide) (by decide) (by decide) (by decide)

theorem rowCell_coerceRow (parse : String → Option Int) (idxs : List Nat) :
    ∀ (cs : List Cell) (j i : Nat),
      rowCell (coerceRow parse idxs j cs) i =
        if (j + i) ∈ idxs then coerceCell parse (rowCell cs i) else rowCell cs i := by
  intro cs
  induction cs with
  | nil =>
    intro j i
    simp [coerceRow, rowCell, coerceCell]
  | cons c cs ih =>
    intro j i
    cases i with
    | zero =>
      simp [coerceRow, rowCell]
    | succ i =>
      have harith : j + (i + 1) = j + 1 + i := by omega
      simp only [coerceRow, rowCell, List.getD_cons_succ]
      rw [harith]
      exact ih (j + 1) i

/-- C6 — The loader parses the five numeric columns cell by cell, maps
every unparsable value to the missing marker instead of failing, and
preserves every other cell and every row. -/
theorem load_data_coerces (parse : String → Option Int) (raw : DataFrame) :
    (loadData parse raw).cols = raw.cols ∧
    (loadData parse raw).rows.length = raw.rows.length ∧
    (∀ k j : Nat,
      rowCell ((loadData parse raw).rows.getD k []) j =
        if j ∈ numericCols.filterMap raw.colIdx
        then coerceCell parse (rowCell (raw.rows.getD k []) j)
        else rowCell (raw.rows.getD k []) j) ∧
    (∀ s, parse s = none → coerceCell parse (some (.str s)) = none) ∧
    (∀ s n, parse s = some n → coerceCell parse (some (.str s)) = some (.num n)) ∧
    coerceCell parse none = none := by
  refine ⟨rfl, List.length_map _ _, ?_, ?_, ?_, rfl⟩
  · intro k j
    rw [List.getD_eq_getElem?_getD, loadData, List.getElem?_map]
    cases hk : raw.rows[k]? with
    | none =>
      rw [List.getD_eq_getElem?_getD, hk]
      simp [rowCell, coerceCell]
    | some r =>
      rw [List.getD_eq_getElem?_getD, hk]
      have := rowCell_coerceRow parse (numericCols.filterMap raw.colIdx) r 0 j
      simpa using this
  · intro s hs
    simp [coerceCell, hs]
  · intro s n hs
    simp [coerceCell, hs]

/-- Witness for C6: on `rawCsvDf` the unparsable Temperature cell "abc"
loads as the missing marker and the non-numeric cells survive. -/
theorem load_data_coerces_witness :
    (loadData parse0 rawCsvDf).cols = rawCsvDf.cols ∧
    (loadData parse0 rawCsvDf).rows.length = rawCsvDf.rows.length ∧
    rowCell ((loadData parse0 rawCsvDf).rows.getD 0 []) 1 =
      (if 1 ∈ numericCols.filterMap rawCsvDf.colIdx
       then coerceCell parse0 (rowCell (rawCsvDf.rows.getD 0 []) 1)
       else rowCell (rawCsvDf.rows.getD 0 []) 1) ∧
    coerceCell parse0 (some (.str "abc")) = none :=
  ⟨(load_data_coerces parse0 rawCsvDf).1,
   (load_data_coerces parse0 rawCsvDf).2.1,
   (load_data_coerces parse0 rawCsvDf).2.2.1 0 1,
   (load_data_coerces parse0 rawCsvDf).2.2.2.1 "abc" (by decide)⟩

theorem keyIdx_ok_of_mem (df : DataFrame) (c : String) (h : c ∈ df.cols) :
    ∃ i, keyIdx df c = .ok i := by
  cases hf : df.cols.findIdx? (fun c' => c' == c) with
  | none =>
    exfalso
    have := List.findIdx?_eq_none_iff.mp hf c h
    simp at this
  | some i => exact ⟨i, by rw [keyIdx, DataFrame.colIdx, hf]⟩

theorem column_ok_of_mem (df : DataFrame) (c : String) (h : c ∈ df.cols) :
    ∃ cells, df.column c = .ok cells := by
  obtain ⟨i, hi⟩ := keyIdx_ok_of_mem df c h
  exact ⟨_, by rw [DataFrame.column, hi]; rfl⟩

theorem nunique_ok_of_mem (df : DataFrame) (c : String) (h : c ∈ df.cols) :
    ∃ n, nunique df c = .ok n := by
  obtain ⟨cells, hc⟩ := column_ok_of_mem df c h
  exact ⟨_, by rw [nunique, hc]; rfl⟩

theorem groupbyCount_ok_of_mem (df : DataFrame) (key target : String)
    (hk : key ∈ df.cols) (ht : target ∈ df.cols) :
    ∃ xs, groupbyCount df key target = .ok xs := by
  obtain ⟨ki, hki⟩ := keyIdx_ok_of_mem df key hk
  obtain ⟨ti, hti⟩ := keyIdx_ok_of_mem df target ht
  exact ⟨_, by rw [groupbyCount, hki]
               simp only [Bind.bind, Except.bind, hti]
               rfl⟩

theorem groupbyNunique_ok_of_mem (df : DataFrame) (key target : String)
    (hk : key ∈ df.cols) (ht : target ∈ df.cols) :
    ∃ xs, groupbyNunique df key target = .ok xs := by
  obtain ⟨ki, hki⟩ := keyIdx_ok_of_mem df key hk
  obtain ⟨ti, hti⟩ := keyIdx_ok_of_mem df target ht
  exact ⟨_, by rw [groupbyNunique, hki]
               simp only [Bind.bind, Except.bind, hti]
               rfl⟩

theorem valueCounts_ok_of_mem (df : DataFrame) (c : String) (h : c ∈ df.cols) :
    ∃ xs, valueCounts df c = .ok xs := by
  obtain ⟨cells, hc⟩ := column_ok_of_mem df c h
  exact ⟨_, by rw [valueCounts, hc]; rfl⟩

theorem addStartHour_ok_of_mem (toHour : Value → Option Value) (df : DataFrame)
    (h : "Start_Time" ∈ df.cols) :
    ∃ d, addStartHour toHour df = .ok d ∧ d.cols = df.cols ++ ["Start_Hour"] := by
  obtain ⟨ti, hti⟩ := keyIdx_ok_of_mem df "Start_Time" h
  refine ⟨_, by rw [addStartHour, hti]; rfl, rfl⟩

theorem keyIdxs_ok_of_mem (df : DataFrame) (cs : List String)
    (h : ∀ c ∈ cs, c ∈ df.cols) : ∃ idxs, keyIdxs df cs = .ok idxs := by
  induction cs with
  | nil => exact ⟨[], rfl⟩
  | cons c cs ih =>
    obtain ⟨i, hi⟩ := keyIdx_ok_of_mem df c (h c (List.mem_cons_self c cs))
    obtain ⟨idxs, hidxs⟩ := ih (fun c' hc' => h c' (List.mem_cons_of_mem _ hc'))
    refine ⟨i :: idxs, ?_⟩
    rw [keyIdxs, hi]
    simp only [Bind.bind, Except.bind, hidxs]
    rfl

theorem dropnaSubset_ok_of_mem (df : DataFrame) (cs : List String)
    (h : ∀ c ∈ cs, c ∈ df.cols) :
    ∃ d, dropnaSubset df cs = .ok d ∧ d.cols = df.cols := by
  obtain ⟨idxs, hidxs⟩ := keyIdxs_ok_of_mem df cs h
  refine ⟨⟨df.cols, df.rows.filter (fun r => idxs.all (fun i => (rowCell r i).isSome))⟩,
    ?_, rfl⟩
  rw [dropnaSubset]
  simp only [Bind.bind, Except.bind, hidxs]
  rfl

theorem scatterView_ok_of_mem (df : DataFrame)
    (h : ∀ c ∈ ["Temperature", "Humidity", "Interval_Length", "Season",
      "Scientific_Name"], c ∈ df.cols) :
    ∃ rows, scatterView df = .ok rows := by
  obtain ⟨d, hd, hcols⟩ := dropnaSubset_ok_of_mem df
    ["Temperature", "Humidity", "Interval_Length"]
    (fun c hc => h c (by simp at hc ⊢; tauto))
  obtain ⟨si, hsi⟩ := keyIdx_ok_of_mem d "Season" (by rw [hcols]; exact h _ (by simp))
  obtain ⟨ni, hni⟩ := keyIdx_ok_of_mem d "Scientific_Name"
    (by rw [hcols]; exact h _ (by simp))
  refine ⟨d.rows, ?_⟩
  rw [scatterView]
  simp only [Bind.bind, Except.bind, hd, hsi, hni]
  rfl

theorem histogramView_ok_of_mem (df : DataFrame) (h : "Distance" ∈ df.cols) :
    ∃ cells, histogramView df = .ok cells := by
  obtain ⟨d, hd, hcols⟩ := dropnaSubset_ok_of_mem df ["Distance"]
    (fun c hc => by simp at hc; rw [hc]; exact h)
  obtain ⟨cells, hc⟩ := column_ok_of_mem d "Distance" (by rw [hcols]; exact h)
  refine ⟨cells, ?_⟩
  rw [histogramView]
  simp only [Bind.bind, Except.bind, hd]
  exact hc

/-- C8 (amended) — As long as every column the views read is present,
the whole page renders for every data condition (a column entirely
missing values merely yields empty groups for its chart); no per-view
data anomaly aborts the page.  A missing key column, however, raises
`KeyError` and aborts the page: see the counterexample theorem. -/
theorem views_survive_data_anomalies (toHour : Value → Option Value)
    (fdf : DataFrame) (hcols : ∀ c ∈ viewCols, c ∈ fdf.cols) :
    (renderPage toHour fdf).isOk = true := by
  have hSci : "Scientific_Name" ∈ fdf.cols := hcols _ (by decide)
  have hObs : "Observer" ∈ fdf.cols := hcols _ (by decide)
  have hSea : "Season" ∈ fdf.cols := hcols _ (by decide)
  have hST : "Start_Time" ∈ fdf.cols := hcols _ (by decide)
  obtain ⟨us, hus⟩ := nunique_ok_of_mem fdf "Scientific_Name" hSci
  obtain ⟨ob, hob⟩ := nunique_ok_of_mem fdf "Observer" hObs
  obtain ⟨sc, hsc⟩ := groupbyCount_ok_of_mem fdf "Season" "Scientific_Name" hSea hSci
  have hsc' : seasonCounts fdf = .ok sc := by rw [seasonCounts]; exact hsc
  obtain ⟨d2, hd2, hd2cols⟩ := addStartHour_ok_of_mem toHour fdf hST
  have hm2 : ∀ c ∈ viewCols, c ∈ d2.cols := fun c hc => by
    rw [hd2cols]; exact List.mem_append_left _ (hcols c hc)
  have hSH : "Start_Hour" ∈ d2.cols := by
    rw [hd2cols]; exact List.mem_append_right _ (by simp)
  obtain ⟨hcnt, hhc⟩ := groupbyCount_ok_of_mem d2 "Start_Hour" "Scientific_Name"
    hSH (hm2 _ (by decide))
  obtain ⟨lc, hlc⟩ := groupbyNunique_ok_of_mem d2 "Location_Type" "Scientific_Name"
    (hm2 _ (by decide)) (hm2 _ (by decide))
  obtain ⟨pcr, hpcr⟩ := groupbyNunique_ok_of_mem d2 "Plot_Name" "Scientific_Name"
    (hm2 _ (by decide)) (hm2 _ (by decide))
  have hpc : plotCounts d2 = .ok ((sortCountDesc pcr).take 10) := by
    rw [plotCounts, hpcr]; rfl
  obtain ⟨tsr, htsr⟩ := valueCounts_ok_of_mem d2 "Scientific_Name" (hm2 _ (by decide))
  have hts : topSpecies d2 = .ok (tsr.take 10) := by
    rw [topSpecies, htsr]; rfl
  obtain ⟨im, him⟩ := valueCounts_ok_of_mem d2 "ID_Method" (hm2 _ (by decide))
  have him' : idMethodCounts d2 = .ok im := by rw [idMethodCounts]; exact him
  obtain ⟨sx, hsx⟩ := valueCounts_ok_of_mem d2 "Sex" (hm2 _ (by decide))
  obtain ⟨scat, hscat⟩ := scatterView_ok_of_mem d2 (by
    intro c hc
    simp only [List.mem_cons, List.not_mem_nil, or_false] at hc
    rcases hc with rfl | rfl | rfl | rfl | rfl <;> exact hm2 _ (by decide))
  obtain ⟨dc, hdc⟩ := valueCounts_ok_of_mem d2 "Disturbance" (hm2 _ (by decide))
  obtain ⟨hist, hhist⟩ := histogramView_ok_of_mem d2 (hm2 _ (by decide))
  obtain ⟨fc, hfc⟩ := valueCounts_ok_of_mem d2 "Flyover_Observed" (hm2 _ (by decide))
  obtain ⟨ocr, hocr⟩ := valueCounts_ok_of_mem d2 "Observer" (hm2 _ (by decide))
  have hoc : obsCounts d2 = .ok (ocr.take 10) := by rw [obsCounts, hocr]; rfl
  obtain ⟨wc, hwc⟩ := valueCounts_ok_of_mem d2 "PIF_Watchlist_Status" (hm2 _ (by decide))
  obtain ⟨acr, hacr⟩ := valueCounts_ok_of_mem d2 "AOU_Code" (hm2 _ (by decide))
  have hac : aouCounts d2 = .ok (acr.take 10) := by rw [aouCounts, hacr]; rfl
  rw [renderPage]
  simp only [Bind.bind, Except.bind, hus, hob, hsc', hd2, hhc, hlc, hpc, hts,
    him', hsx, hscat, hdc, hhist, hfc, hoc, hwc, hac]
  rfl

/-- Witness for the amended C8: the page renders on a table whose every
cell is missing. -/
theorem views_survive_data_anomalies_witness :
    (renderPage (fun _ => none) allMissingDf).isOk = true :=
  views_survive_data_anomalies (fun _ => none) allMissingDf (by decide)

/-- Counterexample to C8 as stated: with the Plot_Name column missing the
`KeyError` aborts the whole page (the render returns the error), rather
than degrading only the one chart. -/
theorem missing_column_aborts_page :
    renderPage (fun _ => none) noPlotDf = .error "Plot_Name" := by decide

/-- C7 — A failed file read propagates: the loader never swallows the
error into an empty table, and the whole app yields the error, so no
partial dashboard is rendered. -/
theorem load_failure_is_fatal (parse : String → Option Int)
    (toHour : Value → Option Value) (e : String) (ys ss ls : List Value) :
    loadPipeline parse (.error e) = .error e ∧
    (∀ raw, loadPipeline parse (.ok raw) = .ok (loadData parse raw)) ∧
    runApp parse toHour (.error e) ys ss ls = .error e := by
  refine ⟨rfl, fun raw => rfl, ?_⟩
  rw [runApp]
  simp [loadPipeline, Except.map, Bind.bind, Except.bind]

end BirdsDash
